import Mathlib

/-!
Verification development for the python-try template repository.

The repository has three one-shot scripts:
* `scripts/setup_hook_commit_message.py` — generates a commit-message
  validation script plus a platform wrapper and installs both into
  `.git/hooks`;
* `scripts/check_git_config.py` — reads `user.name`, `user.email` and
  `core.autocrlf` from git and reports pass/fail;
* `scripts/init_new_project.py` — the bootstrap orchestrator: confirmation
  prompt, user-input collection, deletion of the old `.git` directory,
  re-initialisation, package rename, `pyproject.toml` rewrite, auxiliary
  file rewrites and an initial commit.

Each Python function is embedded as an executable Lean function over an
explicit model of its inputs (subprocess outcomes, prompt answers, the
relevant filesystem state).  Strings of commit messages are modelled as
`List Char` so that structural facts (prefixes, stripping) stay easy to
reason about.
-/

namespace PythonTry

/-! ### Python string helpers

`str.strip()` removes the characters " \t\n\r\x0b\x0c" from both ends.
The helpers are written over `List Char` (or delegate to it) so that they
reduce inside the kernel; the core `String.toLower` / `String.trim` /
`String.replace` work on byte positions and do not. -/

/-- Python `str.isspace` on the default `strip` character set. -/
def pyIsSpace (c : Char) : Bool :=
  c == ' ' || c == '\t' || c == '\n' || c == '\r' || c == '\x0b' || c == '\x0c'

/-- Python `str.strip()` on a character-list view of a string. -/
def py_strip (l : List Char) : List Char :=
  ((l.dropWhile pyIsSpace).reverse.dropWhile pyIsSpace).reverse

/-- Python `str.lower()` (ASCII case folding suffices for every use here). -/
def py_lower (s : String) : String := ⟨s.data.map Char.toLower⟩

/-- Python `str.strip()` on `String`. -/
def py_stripS (s : String) : String := ⟨py_strip s.data⟩

/-- One fuel-indexed pass of Python `str.replace`: replaces non-overlapping
occurrences of `pat` left to right.  `fuel` bounds the number of consumed
characters; callers pass the list length (every use has `pat ≠ []`). -/
def py_replace_go (pat repl : List Char) : Nat → List Char → List Char
  | 0, l => l
  | _ + 1, [] => []
  | fuel + 1, c :: t =>
      if !pat.isEmpty && pat.isPrefixOf (c :: t) then
        repl ++ py_replace_go pat repl fuel ((c :: t).drop pat.length)
      else
        c :: py_replace_go pat repl fuel t

/-- Python `str.replace(pat, repl)`. -/
def py_replace (s pat repl : String) : String :=
  ⟨py_replace_go pat.data repl.data s.data.length s.data⟩

/-! ### `setup_hook_commit_message.py`: the generated validation function

`create_validation_script` writes a Python script whose core is

  `def validate_commit_message(commit_msg_file)`: read the file, strip it,
  accept anything starting with `"Merge"`, otherwise match the stripped
  message against the regex
  `^(feat|fix|docs|style|refactor|perf|test|chore|ci|build|revert)(\(.+\))?!?: .{1,}`
  (printing a fixed guidance text and returning `False` on mismatch).

The regex is embedded as an executable matcher with the same semantics:
`.` never matches a newline, `(\(.+\))?` needs a non-empty scope body, and
the optional groups are resolved by trying both alternatives. -/

/-- The `commit_types` alternation string from `create_validation_script`. -/
def commit_types : String := "feat|fix|docs|style|refactor|perf|test|chore|ci|build|revert"

/-- The individual commit-type tokens of the alternation (the `"|"`-split
of `commit_types`, written out so that the matcher reduces in the kernel). -/
def commit_type_tokens : List (List Char) :=
  ["feat".data, "fix".data, "docs".data, "style".data, "refactor".data,
   "perf".data, "test".data, "chore".data, "ci".data, "build".data, "revert".data]

/-- Matches the regex fragment `: .{1,}` as a prefix of the argument:
a colon, a space, then at least one non-newline character. -/
def colonDesc : List Char → Bool
  | ':' :: ' ' :: c :: _ => c != '\n'
  | _ => false

/-- Matches the fragment `!?: .{1,}` as a prefix: the `!` is optional. -/
def bangColonDesc (t : List Char) : Bool :=
  colonDesc t ||
    (match t with
     | '!' :: u => colonDesc u
     | _ => false)

/-- Matches `.+\)` followed by `!?: .{1,}`: scans for a closing parenthesis
with a non-empty, newline-free scope body before it, trying every possible
closing position (regex backtracking).  `seen` records whether at least one
body character has been consumed. -/
def scopeClose : Bool → List Char → Bool
  | _, [] => false
  | seen, c :: t =>
      (c == ')' && seen && bangColonDesc t) || (c != '\n' && scopeClose true t)

/-- Matches `(\(.+\))?!?: .{1,}` as a prefix of the text following the
commit-type token. -/
def afterType (r : List Char) : Bool :=
  (match r with
   | '(' :: t => scopeClose false t
   | _ => false) || bangColonDesc r

/-- Tries each commit-type token of the alternation in order at the start
of the message. -/
def tryTypes : List (List Char) → List Char → Bool
  | [], _ => false
  | ty :: more, msg =>
      (ty.isPrefixOf msg && afterType (msg.drop ty.length)) || tryTypes more msg

/-- Whole-regex match of the Conventional Commits pattern at the start of
the (already stripped) message. -/
def conventionalMatch (msg : List Char) : Bool :=
  tryTypes commit_type_tokens msg

/-- The guidance text printed by the generated script on a mismatch (one
list entry per `print` call). -/
def guidance_lines : List String :=
  ["\nERROR: Commit message does not follow Conventional Commits format!\n",
   "Format: <type>[optional scope]: <description>\n",
   "Types: feat, fix, docs, style, refactor, perf, test, chore, ci, build, revert\n",
   "Examples:",
   "  feat: add user login",
   "  fix(auth): handle expired tokens",
   "  docs: update API documentation\n"]

/-- Body of the generated `validate_commit_message` after the
`f.read().strip()` step: result plus the lines it prints. -/
def validate_commit_message (commit_msg : List Char) : Bool × List String :=
  if ("Merge".data).isPrefixOf commit_msg then (true, [])
  else if conventionalMatch commit_msg then (true, [])
  else (false, guidance_lines)

/-- The generated `validate_commit_message` applied to raw file contents:
Python strips the text before validating. -/
def validate_commit_msg_file (raw : List Char) : Bool × List String :=
  validate_commit_message (py_strip raw)

/-! ### `setup_hook_commit_message.py`: the installer

The installer depends on `platform.system()` (compared against
`"Windows"`), on `sys.executable`, and on whether `.git/hooks` exists.
Filesystem writes and `chmod` calls are recorded as lists.  Paths are
rendered with `/` separators. -/

/-- Text of the validation script written by `create_validation_script`
(the f-string with `shebang` and `commit_types` interpolated). -/
def validation_script_content (platform_system : String) : String :=
  (if platform_system != "Windows" then "#!/usr/bin/env python3\n" else "") ++
  String.intercalate "\n"
    ["import sys",
     "import re",
     "",
     "def validate_commit_message(commit_msg_file):",
     "    with open(commit_msg_file, \"r\") as f:",
     "        commit_msg = f.read().strip()",
     "",
     "    if commit_msg.startswith(\"Merge\"):",
     "        return True",
     "",
     "    pattern = r\"^(" ++ commit_types ++ ")(\\(.+\\))?!?: .\x7b1,\x7d\"",
     "",
     "    if not re.match(pattern, commit_msg):",
     "        print(\"\\nERROR: Commit message does not follow Conventional Commits format!\\n\")",
     "        print(\"Format: <type>[optional scope]: <description>\\n\")",
     "        print(\"Types: feat, fix, docs, style, refactor, perf, test, chore, ci, build, revert\\n\")",
     "        print(\"Examples:\")",
     "        print(\"  feat: add user login\")",
     "        print(\"  fix(auth): handle expired tokens\")",
     "        print(\"  docs: update API documentation\\n\")",
     "        return False",
     "",
     "    return True",
     "",
     "if __name__ == \"__main__\":",
     "    if not validate_commit_message(sys.argv[1]):",
     "        sys.exit(1)",
     ""]

/-- Path of the validation script, `str(Path(".git") / "hooks" / "validate_commit_msg.py")`. -/
def validation_script_path : String := ".git/hooks/validate_commit_msg.py"

/-- `get_commit_msg_hook`: the platform dispatch wrapper contents. -/
def get_commit_msg_hook (platform_system python_exe script_path : String) : String :=
  if platform_system == "Windows" then
    "@echo off\n\"" ++ python_exe ++ "\" \"" ++ script_path ++ "\" %1\n"
  else
    "#!/bin/bash\n\"" ++ python_exe ++ "\" \"" ++ script_path ++ "\" \"$1\"\n"

/-- Effects of one run of the installer. -/
structure HookInstallResult where
  ok : Bool
  writes : List (String × String)
  chmods : List String
  printed : List String
deriving DecidableEq

/-- `setup_commit_msg_hook`: returns `False` without touching the
filesystem when `.git/hooks` is missing; otherwise writes the validation
script and the platform wrapper (named `commit-msg.bat` on Windows,
`commit-msg` elsewhere), marks the wrapper executable off Windows, and
returns `True`. -/
def setup_commit_msg_hook (platform_system python_exe : String)
    (hooks_dir_exists : Bool) : HookInstallResult :=
  if !hooks_dir_exists then
    { ok := false, writes := [], chmods := [],
      printed := ["ERROR: Not a git repository"] }
  else
    let script_path := validation_script_path
    let hook_name := if platform_system == "Windows" then "commit-msg.bat" else "commit-msg"
    let hook_path := ".git/hooks/" ++ hook_name
    let commit_msg_hook := get_commit_msg_hook platform_system python_exe script_path
    { ok := true,
      writes := [(script_path, validation_script_content platform_system),
                 (hook_path, commit_msg_hook)],
      chmods := if platform_system != "Windows" then [hook_path] else [],
      printed := ["SUCCESS: Commit message hook installed successfully!"] }

/-! ### `check_git_config.py`

Each check shells out to `git config --get ...`.  A call is modelled by
its outcome: the process completed with a return code and stdout text, or
raised `FileNotFoundError` (git not on PATH), or raised some other
exception.  `check_user` / `check_email` pass `check=False` and inspect
the return code; `check_autocrlf` passes `check=True`, so a non-zero
return code surfaces as `CalledProcessError`, caught by its generic
`except Exception` handler. -/

/-- Outcome of one `subprocess.run` call. -/
inductive GitCmdOutcome where
  | completed (returncode : Int) (stdout : String)
  | fileNotFound
  | otherExc (msg : String)
deriving DecidableEq

/-- A Python return value of these checks: a string or a bool. -/
inductive PyRet where
  | str (s : String)
  | bool (b : Bool)
deriving DecidableEq

/-- Python truthiness: `""` and `False` are falsy. -/
def isFalsy : PyRet → Bool
  | .str s => s == ""
  | .bool b => !b

/-- Rendering of a `CalledProcessError` for the generic handler's
`f"ERROR: Unable to check git configuration: \x7be\x7d"` message (the exact
interpreter rendering is irrelevant to every theorem below). -/
def cpe_text (cmd : String) (rc : Int) : String :=
  "Command \x27" ++ cmd ++ "\x27 returned non-zero exit status " ++ toString rc ++ "."

/-- `check_user`: the retrieved `user.name` on success, `""` when the value
is missing/empty, `False` when an exception was caught. -/
def check_user (o : GitCmdOutcome) : PyRet × List String :=
  match o with
  | .completed rc out =>
      if rc != 0 || py_stripS out == "" then
        (.str "",
         ["ERROR: Git user.name is not configured. Please run: git config --global user.name \x27Your Name\x27"])
      else
        (.str (py_stripS out), ["Git user.name is configured as: " ++ py_stripS out])
  | .fileNotFound => (.bool false, ["ERROR: Git executable not found in PATH"])
  | .otherExc e => (.bool false, ["ERROR: Unable to check git configuration: " ++ e])

/-- `check_email`: like `check_user` but every failure branch returns `""`. -/
def check_email (o : GitCmdOutcome) : PyRet × List String :=
  match o with
  | .completed rc out =>
      if rc != 0 || py_stripS out == "" then
        (.str "",
         ["ERROR: Git user.email is not configured. Please run: git config --global user.email \x27your.email@example.com\x27"])
      else
        (.str (py_stripS out), ["Git user.email is configured as: " ++ py_stripS out])
  | .fileNotFound => (.str "", ["ERROR: Git executable not found in PATH"])
  | .otherExc e => (.str "", ["ERROR: Unable to check git configuration: " ++ e])

/-- The platform-specific expected `core.autocrlf` value. -/
def expected_autocrlf (platform_system : String) : String :=
  if platform_system == "Windows" then "true" else "input"

/-- `check_autocrlf`: `True` when the lower-cased retrieved value matches
the platform expectation, `False` on mismatch or on any caught exception
(`CalledProcessError` from `check=True` included). -/
def check_autocrlf (platform_system : String) (o : GitCmdOutcome) : PyRet × List String :=
  match o with
  | .completed rc out =>
      if rc != 0 then
        (.bool false,
         ["ERROR: Unable to check git configuration: " ++ cpe_text "git config --get core.autocrlf" rc])
      else
        let autocrlf := py_lower (py_stripS out)
        if platform_system == "Windows" && autocrlf != "true" then
          (.bool false, ["ERROR: On Windows, please set git config core.autocrlf to true."])
        else if platform_system != "Windows" && autocrlf != "input" then
          (.bool false, ["ERROR: On Unix-like systems, please set git config core.autocrlf to input."])
        else
          (.bool true,
           ["Git core.autocrlf is configured as: " ++ autocrlf ++ " (looks good for " ++ platform_system ++ ")"])
  | .fileNotFound => (.bool false, ["ERROR: Git executable not found in PATH"])
  | .otherExc e => (.bool false, ["ERROR: Unable to check git configuration: " ++ e])

/-! ### `init_new_project.py`: data model

`ProjectConfig` is the dataclass of the script; `Pyproject` is the
structured view of the `pyproject.toml` tables that
`_update_pyproject_toml` touches (tomlkit round-trips the rest of the
file unchanged, so the untouched remainder needs no representation). -/

/-- One entry of the `[project] authors` array. -/
structure Author where
  name : String
  email : String
deriving DecidableEq

/-- The `ProjectConfig` dataclass. -/
structure ProjectConfig where
  name : String
  authors : List Author
  version : String
  description : String
  documentation_url : String := ""
  repository_url : String := ""
deriving DecidableEq

/-- The fields of `pyproject.toml` that the bootstrap reads or writes. -/
structure Pyproject where
  project_name : String
  authors : List Author
  version : String
  description : String
  url_documentation : String
  url_repository : String
  mypy_files : List String
  coverage_run_source : List String
deriving DecidableEq

/-- `_update_pyproject_toml`: overwrite the metadata fields with the
values of the config. -/
def update_pyproject_toml (config : ProjectConfig) (_p : Pyproject) : Pyproject :=
  { project_name := config.name,
    authors := config.authors,
    version := config.version,
    description := config.description,
    url_documentation := config.documentation_url,
    url_repository := config.repository_url,
    mypy_files := ["src/" ++ config.name],
    coverage_run_source := ["src/" ++ config.name] }

/-- `_rename_package_directory` on the list of `src/` package directories:
renames `old_name` to `new_name` when present. -/
def rename_package_directory (old_name new_name : String) (pkgs : List String) : List String :=
  if pkgs.contains old_name then
    pkgs.map (fun p => if p == old_name then new_name else p)
  else pkgs

/-- `_update_devcontainer` body on the file contents. -/
def update_devcontainer (old_name new_name content : String) : String :=
  py_replace
    (py_replace content ("\"name\": \"" ++ old_name ++ "\"") ("\"name\": \"" ++ new_name ++ "\""))
    ("/workspaces/" ++ old_name) ("/workspaces/" ++ new_name)

/-- `_update_readme` body on the file contents. -/
def update_readme (old_name_dash new_name_dash content : String) : String :=
  py_replace
    (py_replace (py_replace content ("# " ++ old_name_dash) ("# " ++ new_name_dash))
      "python-try/" (new_name_dash ++ "/"))
    old_name_dash new_name_dash

/-- `_update_mkdocs_yml` body on the file contents. -/
def update_mkdocs_yml (old_name_dash new_name_dash content : String) : String :=
  py_replace
    (py_replace (py_replace content ("site_name: " ++ old_name_dash) ("site_name: " ++ new_name_dash))
      "/python-try" ("/" ++ new_name_dash))
    ("/" ++ old_name_dash) ("/" ++ new_name_dash)

/-- `_update_dockerfile` body on the file contents. -/
def update_dockerfile (old_name new_name content : String) : String :=
  py_replace content ("from " ++ old_name ++ ".main") ("from " ++ new_name ++ ".main")

/-- `_update_docker_compose` body on the file contents. -/
def update_docker_compose (old_name_dash new_name_dash content : String) : String :=
  py_replace
    (py_replace
      (py_replace
        (py_replace
          (py_replace
            (py_replace content ("image: " ++ old_name_dash ++ ":latest")
              ("image: " ++ new_name_dash ++ ":latest"))
            ("container_name: " ++ old_name_dash ++ "-app")
            ("container_name: " ++ new_name_dash ++ "-app"))
          ("container_name: " ++ old_name_dash ++ "-dev")
          ("container_name: " ++ new_name_dash ++ "-dev"))
        ("/workspaces/" ++ old_name_dash) ("/workspaces/" ++ new_name_dash))
      (old_name_dash ++ "-venv") (new_name_dash ++ "-venv"))
    (old_name_dash ++ "-uv-cache") (new_name_dash ++ "-uv-cache")

/-- `_update_makefile` body on the file contents. -/
def update_makefile (old_name_dash new_name_dash content : String) : String :=
  py_replace content ("-t " ++ old_name_dash) ("-t " ++ new_name_dash)

/-- `_update_tox_ini` body on the file contents. -/
def update_tox_ini (old_name new_name content : String) : String :=
  py_replace (py_replace content ("src/" ++ old_name) ("src/" ++ new_name))
    ("./" ++ old_name) ("./" ++ new_name)

/-- `_get_user_input`: prompt answers (already collected) combined with the
git-config defaults; empty name/author/email exits with code 130. -/
def get_user_input (user_email user_name : String) (project_name : Option String)
    (name_input author_input email_input repo_input : String) :
    Except Nat ProjectConfig :=
  let name := match project_name with
    | some n => if n != "" then n else py_stripS name_input
    | none => py_stripS name_input
  let author := if py_stripS author_input == "" then user_name else py_stripS author_input
  let email := if py_stripS email_input == "" then user_email else py_stripS email_input
  if name == "" then .error 130
  else if author == "" then .error 130
  else if email == "" then .error 130
  else
    let repository_url := py_stripS repo_input
    .ok { name := name,
          authors := [{ name := author, email := email }],
          version := "0.0.1",
          description := "A sample Python project using Poetry.",
          documentation_url := repository_url ++ "/docs",
          repository_url := repository_url }

/-! ### `init_new_project.py`: the orchestrator run

The run is modelled over an explicit filesystem state.  The `.git`
directory is `absent`, the `original` one, or a `fresh` one created by
`git init`; `backup_exists` states whether any backup of the metadata
directory exists (the spec's backup path).  Auxiliary files are optional
contents.  Events record each completed filesystem / git mutation, paired
with the state immediately before it; subprocess calls run with
`check=True`, so a failing call raises `CalledProcessError`, which no
handler in the mutation phase catches. -/

/-- State of the `.git` metadata directory. -/
inductive GitDirState where
  | absent
  | original
  | fresh
deriving DecidableEq

/-- The filesystem state the bootstrap touches. -/
structure FS where
  git_dir : GitDirState
  backup_exists : Bool
  pyproject : Pyproject
  packages : List String
  devcontainer : Option String
  readme : Option String
  mkdocs : Option String
  dockerfile : Option String
  docker_compose : Option String
  makefile : Option String
  tox_ini : Option String
deriving DecidableEq

/-- Completed mutating actions, in source order. -/
inductive Event where
  | removedGitDir
  | gitInit
  | remoteAdd (url : String)
  | renamedPackage (old new : String)
  | updatedPyproject
  | updatedFile (file : String)
  | gitAddAll
  | gitCommit (msg : String)
deriving DecidableEq

/-- An event deletes or replaces the version-control metadata directory. -/
def isDestructive : Event → Bool
  | .removedGitDir => true
  | .gitInit => true
  | _ => false

/-- How one run of the script ends. -/
inductive Outcome where
  | exited (code : Nat)
  | uncaughtFileNotFound
  | uncaughtCalledProcessError
  | finished
deriving DecidableEq

/-- Result of a run: how it ended, the final filesystem state, and the
trace of events (each paired with the state just before it). -/
structure RunResult where
  outcome : Outcome
  fs : FS
  trace : List (Event × FS)
deriving DecidableEq

/-- Effect of one step of the mutation phase at a given state: either a
state transformer together with the event to record (none when the source
skips the action silently), or an uncaught exception. -/
inductive StepResult where
  | ok (f : FS → FS) (e : Option Event)
  | raise (o : Outcome)

/-- Inputs of one run: prompt answers, command-line argument, and the
outcome of every external call. -/
structure RunInput where
  git_on_path : Bool
  confirm : String
  git_config_user : Option (String × String)
  project_name_arg : Option String
  name_input : String
  author_input : String
  email_input : String
  repo_url_input : String
  git_init_ok : Bool
  git_remote_ok : Bool
  git_add_ok : Bool
  git_commit_ok : Bool
deriving DecidableEq

/-- Runs the steps in order, accumulating the event trace; a raised
exception stops the run with the state reached so far. -/
def runSteps : List (FS → StepResult) → FS → List (Event × FS) → RunResult
  | [], fs, tr => { outcome := .finished, fs := fs, trace := tr }
  | step :: rest, fs, tr =>
      match step fs with
      | .raise o => { outcome := o, fs := fs, trace := tr }
      | .ok f e =>
          runSteps rest (f fs)
            (tr ++ (match e with | some ev => [(ev, fs)] | none => []))

/-- Steps 1–7 of `init_new_project` after the confirmation gate and the
input collection, in source order. -/
def mutationSteps (inp : RunInput) (config : ProjectConfig) : List (FS → StepResult) :=
  let new_name_dash := py_replace config.name "_" "-"
  [ -- 1. Remove old git history (only if `.git` exists; `rmtree`).
   fun fs => .ok (fun f => { f with git_dir := .absent })
     (if fs.git_dir != .absent then some .removedGitDir else none),
   -- 2. `git init -b main` (check=True).
   fun _ => if !inp.git_init_ok then .raise .uncaughtCalledProcessError
     else .ok (fun f => { f with git_dir := .fresh }) (some .gitInit),
   -- 3. `git remote add origin <url>` when a repository URL was given.
   fun _ =>
     if config.repository_url != "" then
       if !inp.git_remote_ok then .raise .uncaughtCalledProcessError
       else .ok id (some (.remoteAdd config.repository_url))
     else .ok id none,
   -- 4. Rename the package directory `src/python_try`.
   fun fs => .ok (fun f => { f with packages := rename_package_directory "python_try" config.name f.packages })
     (if fs.packages.contains "python_try" then some (.renamedPackage "python_try" config.name) else none),
   -- 5. Rewrite `pyproject.toml`.
   fun _ => .ok (fun f => { f with pyproject := update_pyproject_toml config f.pyproject })
     (some .updatedPyproject),
   -- 6. Rewrite the auxiliary files that exist.
   fun fs => .ok (fun f => { f with devcontainer := f.devcontainer.map (update_devcontainer "python-try" new_name_dash) })
     (if fs.devcontainer.isSome then some (.updatedFile "devcontainer.json") else none),
   fun fs => .ok (fun f => { f with readme := f.readme.map (update_readme "python-try" new_name_dash) })
     (if fs.readme.isSome then some (.updatedFile "README.md") else none),
   fun fs => .ok (fun f => { f with mkdocs := f.mkdocs.map (update_mkdocs_yml "python-try" new_name_dash) })
     (if fs.mkdocs.isSome then some (.updatedFile "mkdocs.yml") else none),
   fun fs => .ok (fun f => { f with dockerfile := f.dockerfile.map (update_dockerfile "python_try" config.name) })
     (if fs.dockerfile.isSome then some (.updatedFile "Dockerfile") else none),
   fun fs => .ok (fun f => { f with docker_compose := f.docker_compose.map (update_docker_compose "python-try" new_name_dash) })
     (if fs.docker_compose.isSome then some (.updatedFile "docker-compose.yml") else none),
   fun fs => .ok (fun f => { f with makefile := f.makefile.map (update_makefile "python-try" new_name_dash) })
     (if fs.makefile.isSome then some (.updatedFile "Makefile") else none),
   fun fs => .ok (fun f => { f with tox_ini := f.tox_ini.map (update_tox_ini "python_try" config.name) })
     (if fs.tox_ini.isSome then some (.updatedFile "tox.ini") else none),
   -- 7. `git add .` and the initial commit (both check=True).
   fun _ => if !inp.git_add_ok then .raise .uncaughtCalledProcessError
     else .ok id (some .gitAddAll),
   fun _ => if !inp.git_commit_ok then .raise .uncaughtCalledProcessError
     else .ok id (some (.gitCommit ("Initial commit from " ++ config.name ++ " template")))]

/-- The `user.name` / `user.email` defaults read via `git config` before
prompting (`"none"` for both when the read raised `CalledProcessError`). -/
def config_defaults : Option (String × String) → String × String
  | some (n, e) => (py_stripS n, py_stripS e)
  | none => ("none", "none")

/-- `init_new_project`: resolve git (raising `FileNotFoundError` when it is
not on PATH), confirm (anything whose lower-cased form differs from `"y"`
aborts with `sys.exit(0)`), read the git-config defaults (falling back to
`"none"` on `CalledProcessError`), collect the input, then run the
mutation phase. -/
def init_new_project (inp : RunInput) (fs0 : FS) : RunResult :=
  if !inp.git_on_path then
    { outcome := .uncaughtFileNotFound, fs := fs0, trace := [] }
  else if py_lower inp.confirm != "y" then
    { outcome := .exited 0, fs := fs0, trace := [] }
  else
    match get_user_input (config_defaults inp.git_config_user).2
        (config_defaults inp.git_config_user).1 inp.project_name_arg
        inp.name_input inp.author_input inp.email_input inp.repo_url_input with
    | .error code => { outcome := .exited code, fs := fs0, trace := [] }
    | .ok config => runSteps (mutationSteps inp config) fs0 []

/-! ### Concrete fixtures

A template checkout whose manifest matches the spec's example scenario
(`name = "old-pkg"`, single author `{name="A", email="a@x.com"}`, no
backup present), and a run answering the prompts with `"new-pkg"`, `"B"`,
`"b@x.com"` after confirming with `"y"`. -/

/-- The example manifest before the bootstrap. -/
def pyproject_old : Pyproject :=
  { project_name := "old-pkg", authors := [{ name := "A", email := "a@x.com" }],
    version := "0.1.0", description := "template",
    url_documentation := "", url_repository := "",
    mypy_files := ["src/python_try"], coverage_run_source := ["src/python_try"] }

/-- A template checkout: original `.git`, no backup, `src/python_try`. -/
def fs_template : FS :=
  { git_dir := .original, backup_exists := false, pyproject := pyproject_old,
    packages := ["python_try"], devcontainer := none, readme := none,
    mkdocs := none, dockerfile := none, docker_compose := none,
    makefile := none, tox_ini := none }

/-- Inputs of the example run: confirmation `"y"`, project `"new-pkg"`,
author `"B"`, email `"b@x.com"`, no remote, all git calls succeeding. -/
def inp_happy : RunInput :=
  { git_on_path := true, confirm := "y", git_config_user := none,
    project_name_arg := none, name_input := "new-pkg", author_input := "B",
    email_input := "b@x.com", repo_url_input := "",
    git_init_ok := true, git_remote_ok := true, git_add_ok := true, git_commit_ok := true }

/-- The example run with a failing `git init` subprocess. -/
def inp_initfail : RunInput := { inp_happy with git_init_ok := false }

/-! ### Helper lemmas -/

lemma isPrefixOf_self_append (l r : List Char) : l.isPrefixOf (l ++ r) = true := by
  simp

lemma merge_strip (rest : List Char) :
    ∃ r', py_strip ("Merge".data ++ rest) = "Merge".data ++ r' := by
  unfold py_strip
  have h1 : ("Merge".data ++ rest).dropWhile pyIsSpace = "Merge".data ++ rest := by
    show (('M' :: ("erge".data ++ rest)).dropWhile pyIsSpace) = _
    rw [List.dropWhile_cons]
    simp [pyIsSpace]
  rw [h1, List.reverse_append]
  rw [List.dropWhile_append]
  split
  · refine ⟨[], ?_⟩
    show ((['M','e','r','g','e'].reverse).dropWhile pyIsSpace).reverse = _
    simp [List.dropWhile, pyIsSpace]
  · refine ⟨(rest.reverse.dropWhile pyIsSpace).reverse, ?_⟩
    rw [List.reverse_append]
    simp

lemma runSteps_trace_extends (steps : List (FS → StepResult)) :
    ∀ fs tr, ∃ tr', (runSteps steps fs tr).trace = tr ++ tr' := by
  induction steps with
  | nil => intro fs tr; exact ⟨[], by simp [runSteps]⟩
  | cons s rest ih =>
    intro fs tr
    simp only [runSteps]
    cases hs : s fs with
    | raise o => exact ⟨[], by simp⟩
    | ok f e =>
      cases e with
      | none =>
          obtain ⟨tr', htr'⟩ := ih (f fs) (tr ++ [])
          exact ⟨tr', by simpa using htr'⟩
      | some ev =>
          obtain ⟨tr', htr'⟩ := ih (f fs) (tr ++ [(ev, fs)])
          refine ⟨[(ev, fs)] ++ tr', ?_⟩
          show (runSteps rest (f fs) (tr ++ [(ev, fs)])).trace = _
          rw [htr', List.append_assoc]

lemma runSteps_backup_inv (b : Bool) (steps : List (FS → StepResult))
    (hsteps : ∀ s ∈ steps, ∀ fs f e, s fs = .ok f e → (f fs).backup_exists = fs.backup_exists) :
    ∀ fs tr, fs.backup_exists = b →
      tr.all (fun p => p.2.backup_exists == b) = true →
      (runSteps steps fs tr).fs.backup_exists = b ∧
      (runSteps steps fs tr).trace.all (fun p => p.2.backup_exists == b) = true := by
  induction steps with
  | nil => intro fs tr h1 h2; exact ⟨h1, h2⟩
  | cons s rest ih =>
    intro fs tr h1 h2
    simp only [runSteps]
    cases hs : s fs with
    | raise o => exact ⟨h1, h2⟩
    | ok f e =>
      apply ih
      · intro s' hs' fs' f' e' h'
        exact hsteps s' (List.mem_cons_of_mem s hs') fs' f' e' h'
      · exact (hsteps s (List.mem_cons_self s rest) fs f e hs).trans h1
      · cases e with
        | none => simpa using h2
        | some ev => simp [List.all_append, h2, h1]

lemma mutationSteps_preserve_backup (inp : RunInput) (config : ProjectConfig) :
    ∀ s ∈ mutationSteps inp config, ∀ fs f e, s fs = .ok f e →
      (f fs).backup_exists = fs.backup_exists := by
  intro s hs fs f e h
  simp only [mutationSteps, List.mem_cons, List.not_mem_nil, or_false] at hs
  rcases hs with rfl|rfl|rfl|rfl|rfl|rfl|rfl|rfl|rfl|rfl|rfl|rfl|rfl|rfl <;>
    (repeat' split at h) <;>
    first
      | (injection h with h1 h2; subst h1; rfl)
      | simp at h

lemma runSteps_cons_ok (s : FS → StepResult) (rest : List (FS → StepResult))
    (fs : FS) (tr : List (Event × FS)) (f : FS → FS) (ev : Event)
    (h : s fs = .ok f (some ev)) :
    runSteps (s :: rest) fs tr = runSteps rest (f fs) (tr ++ [(ev, fs)]) := by
  simp only [runSteps, h]

lemma run_decline (inp : RunInput) (fs0 : FS)
    (hgit : inp.git_on_path = true) (hconf : py_lower inp.confirm ≠ "y") :
    init_new_project inp fs0 = { outcome := .exited 0, fs := fs0, trace := [] } := by
  unfold init_new_project
  simp [hgit, hconf]

lemma run_confirmed_trace (inp : RunInput) (fs0 : FS)
    (hgit : inp.git_on_path = true) (hconf : py_lower inp.confirm = "y")
    (harg : inp.project_name_arg = none)
    (hname : py_stripS inp.name_input ≠ "")
    (hauthor : py_stripS inp.author_input ≠ "")
    (hemail : py_stripS inp.email_input ≠ "")
    (hfs : fs0.git_dir = .original) :
    ∃ tr', (init_new_project inp fs0).trace = (Event.removedGitDir, fs0) :: tr' := by
  unfold init_new_project
  simp only [hgit, Bool.not_true, Bool.false_eq_true, if_false]
  rw [if_neg (by simp [hconf])]
  unfold get_user_input
  simp only [harg]
  rw [if_neg (by simp [hname]), if_neg (by simp [hauthor, hname]), if_neg (by simp [hemail])]
  show ∃ tr', (runSteps (mutationSteps inp _) fs0 []).trace = _
  rw [mutationSteps]
  rw [runSteps_cons_ok _ _ fs0 []
    (fun f => { f with git_dir := GitDirState.absent }) Event.removedGitDir (by simp [hfs])]
  obtain ⟨tr', htr'⟩ := runSteps_trace_extends _ _ ([] ++ [(Event.removedGitDir, fs0)])
  exact ⟨tr', by simpa using htr'⟩

/-! ### Claim theorems -/

/-- Claim C1, counterexample: in the example run (confirmation `"y"`, all
git calls succeeding, no backup present), the orchestrator deletes or
replaces the `.git` directory at a point where no backup exists — the
claimed backup-before-destruction invariant is false for this code. -/
theorem C1_counterexample :
    ¬ ∀ p ∈ (init_new_project inp_happy fs_template).trace,
        isDestructive p.1 = true → p.2.backup_exists = true := by
  decide

/-- Claim C1, amended: `init_new_project` never creates (or touches) any
backup: `backup_exists` after the run and before every traced step equals
its initial value, so starting from a backup-free state every destructive
step runs with no backup in existence. -/
theorem C1_backup_never_created (inp : RunInput) (fs0 : FS) :
    (init_new_project inp fs0).fs.backup_exists = fs0.backup_exists ∧
    (init_new_project inp fs0).trace.all
      (fun p => p.2.backup_exists == fs0.backup_exists) = true := by
  unfold init_new_project
  split
  · exact ⟨rfl, rfl⟩
  · split
    · exact ⟨rfl, rfl⟩
    · split
      · exact ⟨rfl, rfl⟩
      · rename_i config heq
        exact runSteps_backup_inv fs0.backup_exists _
          (mutationSteps_preserve_backup inp config) fs0 [] rfl rfl

/-- Claim C2, counterexample: when `git init` fails after the old `.git`
directory has been removed, the run ends in an uncaught
`CalledProcessError` (no orchestrator-boundary catch, no rollback) and the
final state differs from the pre-run state: the metadata directory is
gone, not restored. -/
theorem C2_counterexample :
    (init_new_project inp_initfail fs_template).outcome = .uncaughtCalledProcessError ∧
    fs_template.git_dir = .original ∧
    (init_new_project inp_initfail fs_template).fs.git_dir = .absent ∧
    (init_new_project inp_initfail fs_template).fs ≠ fs_template := by
  decide

/-- Claim C2, amended: for every confirmed run in which the
reinitialization (`git init`) step fails, the exception propagates
uncaught, the already-deleted `.git` directory stays deleted (no rollback,
no restoration), and only one mutating event (the deletion) has run, so
the manifest is still untouched at this failure point. -/
theorem C2_failure_propagates_uncaught (inp : RunInput) (fs0 : FS)
    (hgit : inp.git_on_path = true) (hconf : py_lower inp.confirm = "y")
    (harg : inp.project_name_arg = none)
    (hname : py_stripS inp.name_input ≠ "")
    (hauthor : py_stripS inp.author_input ≠ "")
    (hemail : py_stripS inp.email_input ≠ "")
    (hinit : inp.git_init_ok = false)
    (hfs : fs0.git_dir = .original) :
    (init_new_project inp fs0).outcome = .uncaughtCalledProcessError ∧
    (init_new_project inp fs0).fs.git_dir = .absent ∧
    (init_new_project inp fs0).fs.pyproject = fs0.pyproject ∧
    (init_new_project inp fs0).trace = [(.removedGitDir, fs0)] := by
  unfold init_new_project
  simp only [hgit, Bool.not_true, Bool.false_eq_true, if_false, hconf]
  rw [if_neg (by simp [hconf])]
  unfold get_user_input
  simp only [harg]
  rw [if_neg (by simp [hname]), if_neg (by simp [hauthor, hname]), if_neg (by simp [hemail])]
  simp [mutationSteps, runSteps, hfs, hinit]

/-- Claim C2, witness for the amended theorem at the concrete
failing-`git init` run. -/
theorem C2_witness :
    (init_new_project inp_initfail fs_template).outcome = .uncaughtCalledProcessError ∧
    (init_new_project inp_initfail fs_template).fs.git_dir = .absent ∧
    (init_new_project inp_initfail fs_template).fs.pyproject = fs_template.pyproject ∧
    (init_new_project inp_initfail fs_template).trace = [(.removedGitDir, fs_template)] :=
  C2_failure_propagates_uncaught inp_initfail fs_template rfl (by decide) rfl
    (by decide) (by decide) (by decide) rfl rfl

/-- Claim C3: every confirmation answer whose lower-cased form is not
`"y"` makes the orchestrator exit with code 0, with no mutation and an
empty event trace. -/
theorem C3_decline_no_action (inp : RunInput) (fs0 : FS)
    (hgit : inp.git_on_path = true) (hconf : py_lower inp.confirm ≠ "y") :
    init_new_project inp fs0 = { outcome := .exited 0, fs := fs0, trace := [] } :=
  run_decline inp fs0 hgit hconf

/-- Claim C3, witness at the concrete declining answer `"n"`. -/
theorem C3_witness :
    init_new_project { inp_happy with confirm := "n" } fs_template
      = { outcome := .exited 0, fs := fs_template, trace := [] } :=
  C3_decline_no_action { inp_happy with confirm := "n" } fs_template rfl (by decide)

/-- Claim C4: the generated validator accepts `"feat: add x"`, rejects
`"random text"` printing exactly the expected-format guidance, and accepts
every message that starts with `"Merge"` whatever follows. -/
theorem C4_validator_examples :
    (validate_commit_msg_file "feat: add x".data).1 = true ∧
    validate_commit_msg_file "random text".data = (false, guidance_lines) ∧
    ∀ rest : List Char, (validate_commit_msg_file ("Merge".data ++ rest)).1 = true := by
  refine ⟨by decide, by decide, ?_⟩
  intro rest
  obtain ⟨r', hr⟩ := merge_strip rest
  unfold validate_commit_msg_file
  rw [hr]
  unfold validate_commit_message
  rw [if_pos]
  exact isPrefixOf_self_append _ _

/-- Claim C5: with no `.git/hooks` directory the installer returns `False`
and writes nothing; with the directory present it returns `True` and
writes exactly the validation script and the platform wrapper. -/
theorem C5_hooks_dir_gate (ps exe : String) :
    (setup_commit_msg_hook ps exe false).ok = false ∧
    (setup_commit_msg_hook ps exe false).writes = [] ∧
    (setup_commit_msg_hook ps exe false).chmods = [] ∧
    (setup_commit_msg_hook ps exe true).ok = true ∧
    (setup_commit_msg_hook ps exe true).writes.map Prod.fst =
      [validation_script_path,
       ".git/hooks/" ++ (if ps == "Windows" then "commit-msg.bat" else "commit-msg")] := by
  refine ⟨rfl, rfl, rfl, rfl, rfl⟩

/-- Claim C6: on a successful `git config` read, `check_autocrlf` returns
`True` exactly when the stripped lower-cased value equals the platform
expectation (`"true"` on Windows, `"input"` otherwise), and on a mismatch
it prints the corresponding error message (returning `False`). -/
theorem C6_autocrlf_policy (ps out : String) :
    (check_autocrlf ps (.completed 0 out)).1
        = .bool (py_lower (py_stripS out) == expected_autocrlf ps) ∧
    (check_autocrlf ps (.completed 0 out)).2
        = (if py_lower (py_stripS out) == expected_autocrlf ps then
             ["Git core.autocrlf is configured as: " ++ py_lower (py_stripS out) ++
              " (looks good for " ++ ps ++ ")"]
           else if ps == "Windows" then
             ["ERROR: On Windows, please set git config core.autocrlf to true."]
           else
             ["ERROR: On Unix-like systems, please set git config core.autocrlf to input."]) := by
  unfold check_autocrlf expected_autocrlf
  by_cases hw : ps == "Windows" <;>
    by_cases hv : py_lower (py_stripS out) == (if ps == "Windows" then "true" else "input") <;>
      simp_all

/-- Claim C7, counterexample: on a successful read of the expected value,
`check_autocrlf` returns the boolean `True`, which is neither the
retrieved value (`"input"`) nor a falsy failure value — so the claim's
"each sub-check returns either the retrieved value or a failure value"
is false for `check_autocrlf`. -/
theorem C7_counterexample :
    (check_autocrlf "Linux" (.completed 0 "input")).1 = .bool true ∧
    (check_autocrlf "Linux" (.completed 0 "input")).1 ≠ .str "input" ∧
    isFalsy (check_autocrlf "Linux" (.completed 0 "input")).1 = false := by
  decide

/-- Claim C7, amended: every outcome of the external command gives each
check a returned value (no exception escapes): `check_user` and
`check_email` return the retrieved stripped value on success and a falsy
value (`""` or `False`) on every failure; `check_autocrlf` returns only
the booleans `True` or `False`. -/
theorem C7_checks_never_fatal (ps : String) :
    (∀ o, (∃ out, o = .completed 0 out ∧ py_stripS out ≠ "" ∧
            (check_user o).1 = .str (py_stripS out)) ∨ isFalsy (check_user o).1 = true) ∧
    (∀ o, (∃ out, o = .completed 0 out ∧ py_stripS out ≠ "" ∧
            (check_email o).1 = .str (py_stripS out)) ∨ isFalsy (check_email o).1 = true) ∧
    (∀ o, (check_autocrlf ps o).1 = .bool true ∨ (check_autocrlf ps o).1 = .bool false) := by
  refine ⟨?_, ?_, ?_⟩
  · intro o
    cases o with
    | completed rc out =>
        by_cases h : (rc != 0 || py_stripS out == "") = true
        · right; simp [check_user, h, isFalsy]
        · simp only [Bool.or_eq_true, bne_iff_ne, beq_iff_eq, not_or, Decidable.not_not] at h
          obtain ⟨h1, h2⟩ := h
          subst h1
          exact Or.inl ⟨out, rfl, h2, by simp [check_user, h2]⟩
    | fileNotFound => right; rfl
    | otherExc e => right; rfl
  · intro o
    cases o with
    | completed rc out =>
        by_cases h : (rc != 0 || py_stripS out == "") = true
        · right; simp [check_email, h, isFalsy]
        · simp only [Bool.or_eq_true, bne_iff_ne, beq_iff_eq, not_or, Decidable.not_not] at h
          obtain ⟨h1, h2⟩ := h
          subst h1
          exact Or.inl ⟨out, rfl, h2, by simp [check_email, h2]⟩
    | fileNotFound => right; rfl
    | otherExc e => right; rfl
  · intro o
    cases o with
    | completed rc out =>
        simp only [check_autocrlf]
        split_ifs <;> simp
    | fileNotFound => right; rfl
    | otherExc e => right; rfl

/-- Claim C8: from the example manifest (`"old-pkg"`, author
`{A, a@x.com}`) the example run (new name `"new-pkg"`, author `"B"`,
email `"b@x.com"`) finishes and leaves the manifest with project name
`"new-pkg"` and exactly the single author `{B, b@x.com}`. -/
theorem C8_example_scenario :
    fs_template.pyproject.project_name = "old-pkg" ∧
    fs_template.pyproject.authors = [{ name := "A", email := "a@x.com" }] ∧
    (init_new_project inp_happy fs_template).outcome = .finished ∧
    (init_new_project inp_happy fs_template).fs.pyproject.project_name = "new-pkg" ∧
    (init_new_project inp_happy fs_template).fs.pyproject.authors
      = [{ name := "B", email := "b@x.com" }] := by
  decide

/-- Claim C9: for valid prompt answers on a template checkout, the run
performs a destructive step exactly when the lower-cased confirmation
answer is `"y"` (so `"Y"` is accepted, and anything else aborts). -/
theorem C9_confirmation_case_insensitive (inp : RunInput) (fs0 : FS)
    (hgit : inp.git_on_path = true)
    (harg : inp.project_name_arg = none)
    (hname : py_stripS inp.name_input ≠ "")
    (hauthor : py_stripS inp.author_input ≠ "")
    (hemail : py_stripS inp.email_input ≠ "")
    (hfs : fs0.git_dir = .original) :
    (init_new_project inp fs0).trace.any (fun p => isDestructive p.1) = true
      ↔ py_lower inp.confirm = "y" := by
  constructor
  · intro h
    by_contra hc
    rw [run_decline inp fs0 hgit hc] at h
    simp at h
  · intro hconf
    obtain ⟨tr', htr'⟩ := run_confirmed_trace inp fs0 hgit hconf harg hname hauthor hemail hfs
    rw [htr']
    simp [isDestructive]

/-- Claim C9, witness at the upper-case confirmation `"Y"`. -/
theorem C9_witness :
    (init_new_project { inp_happy with confirm := "Y" } fs_template).trace.any
        (fun p => isDestructive p.1) = true
      ↔ py_lower { inp_happy with confirm := "Y" }.confirm = "y" :=
  C9_confirmation_case_insensitive { inp_happy with confirm := "Y" } fs_template
    rfl rfl (by decide) (by decide) (by decide) rfl

/-- Claim C10: the generated validator accepts the breaking-change marker
(`"feat!: x"`, `"fix(auth)!: y"`), and for every commit type rejects the
bare `"type:"` and `"type: "` forms (no description character), as well as
the empty message. -/
theorem C10_breaking_marker_and_description :
    (validate_commit_msg_file "feat!: x".data).1 = true ∧
    (validate_commit_msg_file "fix(auth)!: y".data).1 = true ∧
    (∀ ty ∈ commit_type_tokens,
      (validate_commit_msg_file (ty ++ ":".data)).1 = false ∧
      (validate_commit_msg_file (ty ++ ": ".data)).1 = false) ∧
    (validate_commit_msg_file ([] : List Char)).1 = false := by
  decide

/-- Claim C10, witness instantiating the quantified conjunct at the
commit type `"feat"`. -/
theorem C10_witness :
    (validate_commit_msg_file ("feat".data ++ ":".data)).1 = false ∧
    (validate_commit_msg_file ("feat".data ++ ": ".data)).1 = false :=
  C10_breaking_marker_and_description.2.2.1 "feat".data (by decide)

end PythonTry
